import Mathlib

/-!
Verification of the task-orchestration core of the agentic-direct repository.

The embedding covers, faithfully to the TypeScript source:
* the legacy A2A router (`A2ARouter` with its in-memory task map, the
  per-task event-bus closures, `handleSendMessage`, `handleGetTaskRPC`,
  `handleCancelTask` and `handleJSONRPC`);
* the legacy `AgentExecutor.execute` loop (plan normalization, the
  `__PREVIOUS_RESULT_ID__` placeholder substitution, per-step tool
  invocation, intermediate/final/error message publication);
* the `pollTask` dedup slice and bounded polling loop of the browser
  test client, and the `startTaskPolling` interval of the SDK client.

Modelling decisions (stated once, used throughout):
* JSON values are the inductive `JVal`; JavaScript `undefined` and `null`
  are both modelled by `JVal.null` (they are interchangeable for every
  truthiness test the source performs).
* `uuidv4()` is modelled by a deterministic fresh supply: the router state
  carries `nextUuid : Nat` and each generation consumes one value.  Task
  ids are the supplied naturals; generated context ids are rendered with
  `uuidStr`.
* Timestamps (`new Date().toISOString()`) and random message ids are
  metadata never read by any control path of the source and are omitted.
* The planner oracle (`selectToolWithAI`) and the tool registry
  (`mcpServer.callTool` together with the MCP unwrapping in `executeTool`) are
  external collaborators; they enter as an `Except`-valued plan argument
  and a `ToolFn` argument.  A thrown JavaScript error is `Except.error`
  carrying the error message.
* `execute` additionally returns the ordered trace of tool-registry
  invocations actually performed, as the observable needed to state
  which steps were attempted and with which parameters.
-/

namespace AgenticDirect

/-- JSON value, as produced by `JSON.parse` in the source. -/
inductive JVal where
  | null
  | bool (b : Bool)
  | num (n : Int)
  | str (s : String)
  | arr (elems : List JVal)
  | obj (fields : List (String × JVal))

/-- JavaScript truthiness of a JSON value (`if (v)`). -/
def JVal.truthy : JVal → Bool
  | JVal.null => false
  | JVal.bool b => b
  | JVal.num n => decide (n ≠ 0)
  | JVal.str s => decide (s ≠ "")
  | JVal.arr _ => true
  | JVal.obj _ => true

/-- JavaScript property access `v.key`: the field of an object, and
`undefined` (modelled as `JVal.null`) on every non-object. -/
def jsField : JVal → String → JVal
  | JVal.obj fields, key => (((fields.find? (fun kv => kv.1 == key)).map (fun kv => kv.2)).getD JVal.null)
  | _, _ => JVal.null

/-- JavaScript strict equality `v === s` against a string literal: true
exactly for the equal string. -/
def JVal.isStr : JVal → String → Bool
  | JVal.str s, t => s == t
  | _, _ => false

/-- Message role (`role` field). -/
inductive Role where
  | user
  | agent
deriving DecidableEq, Repr

/-- Typed payload fragment of a message (`parts` entries). -/
inductive Part where
  | text (t : String)
  | data (d : JVal)

/-- A history entry.  The random `messageId` and the timestamp are inert
metadata never read by the control flow of the source and are omitted. -/
structure Message where
  role : Role
  parts : List Part
  contextId : Option String := none
  taskId : Option Nat := none

/-- Task lifecycle state (`status.state`). -/
inductive TaskState where
  | working
  | completed
  | failed
  | canceled
deriving DecidableEq, Repr

/-- The three states out of which the spec defines no transition. -/
def isTerminal : TaskState → Bool
  | TaskState.working => false
  | _ => true

/-- Task status: the extended `TaskStatus` of the source whose `message`
field is the failure reason string. -/
structure TaskStatus where
  state : TaskState
  message : Option String := none

/-- A task record as stored in the `tasks` map of the router. -/
structure Task where
  id : Nat
  contextId : String
  status : TaskStatus
  history : List Message

/-- The `publish` closure of the event bus created in `handleSendMessage`:
it unconditionally appends the event to the task history. -/
def eventBusPublish (t : Task) (event : Message) : Task :=
  { t with history := t.history ++ [event] }

/-- The `finished` closure of the event bus created in `handleSendMessage`:
it unconditionally sets the status to `completed`. -/
def eventBusFinished (t : Task) : Task :=
  { t with status := { state := TaskState.completed } }

/-- The reserved placeholder value recognised by the step executor. -/
def previousResultSentinel : String := "__PREVIOUS_RESULT_ID__"

/-- Top-level parameter object of one tool invocation. -/
abbrev Params := List (String × JVal)

/-- One entry of a multi-step plan (`{toolName, toolParams}`). -/
structure PlanStep where
  toolName : String
  toolParams : Params

/-- The parsed JSON reply of the planner oracle: either a single
`{toolName, toolParams}` or a `steps` array. -/
structure PlanResponse where
  toolName : String
  toolParams : Params
  steps : Option (List PlanStep)

/-- Plan normalization
`planResponse.steps || [{toolName, toolParams}]`; an array (empty
included) is truthy in JavaScript, so a present `steps` field is taken
as is. -/
def planSteps (p : PlanResponse) : List PlanStep :=
  match p.steps with
  | some ss => ss
  | none => [{ toolName := p.toolName, toolParams := p.toolParams }]

/-- The tool registry as seen through the MCP unwrapping in `executeTool`:
a name and parameters give either the extracted result value or a thrown
error message. -/
abbrev ToolFn := String → Params → Except String JVal

/-- One observed tool-registry invocation (name and resolved params). -/
abbrev ToolCall := String × Params

/-- The placeholder-substitution block of `AgentExecutor.execute`: when the
previous result is truthy and has a truthy `id` field, every top-level
parameter value strictly equal to the sentinel string is replaced by that
`id`; otherwise the parameters are left untouched. -/
def resolveParams (previousResult : JVal) (toolParams : Params) : Params :=
  if previousResult.truthy && (jsField previousResult "id").truthy then
    toolParams.map (fun kv =>
      if kv.2.isStr previousResultSentinel then (kv.1, jsField previousResult "id") else kv)
  else toolParams

/-- `createAgentMessage`: a text part, plus a data part exactly when the
data argument is truthy. -/
def createAgentMessage (text : String) (payload : JVal) (contextId : String) (taskId : Nat) : Message :=
  { role := Role.agent
    parts := [Part.text text] ++ (if payload.truthy then [Part.data payload] else [])
    contextId := some contextId
    taskId := some taskId }

/-- Progress text of the intermediate per-step message. -/
def stepProgressText (idx total : Nat) (name : String) : String :=
  s!"Step {idx + 1}/{total}: Successfully executed {name}"

/-- The numbered step list of the final multi-step summary. -/
def stepListText (steps : List PlanStep) : String :=
  String.intercalate "\n" (steps.enum.map (fun p => s!"{p.1 + 1}. {p.2.toolName}"))

/-- Context handed by `handleSendMessage` to the executor. -/
structure ExecutionContext where
  message : Message
  contextId : String
  taskId : Nat

/-- Outcome of the sequential step loop: normal exhaustion with the
accumulated results, or a thrown fault message. -/
inductive LoopOutcome where
  | ok (t : Task) (results : List JVal)
  | fault (t : Task) (errMsg : String)

/-- The sequential step loop of `AgentExecutor.execute`: resolve
placeholders against the previous result, invoke the tool, accumulate
`{tool, result}`, publish an intermediate message when the plan has more
than one step, and abort with the thrown message on a fault.  The second
component is the trace of tool invocations performed. -/
def runSteps (tool : ToolFn) (ctx : ExecutionContext) (total : Nat) :
    Nat → JVal → List JVal → Task → List PlanStep → LoopOutcome × List ToolCall
  | _, _, results, t, [] => (LoopOutcome.ok t results, [])
  | idx, previousResult, results, t, s :: rest =>
    let prms := resolveParams previousResult s.toolParams
    match tool s.toolName prms with
    | Except.error m =>
        (LoopOutcome.fault t (String.append "Tool execution failed: " m), [(s.toolName, prms)])
    | Except.ok r =>
        let results2 := results ++ [JVal.obj [("tool", JVal.str s.toolName), ("result", r)]]
        let t2 := if total > 1 then
            eventBusPublish t (createAgentMessage (stepProgressText idx total s.toolName) r ctx.contextId ctx.taskId)
          else t
        let next := runSteps tool ctx total (idx + 1) r results2 t2 rest
        (next.1, (s.toolName, prms) :: next.2)

/-- The engine TypeError message when a normalized empty plan reaches the
final summary (`steps[0].toolName` on an empty array); the exact engine
wording is irrelevant to every property below. -/
def emptyPlanTypeError : String := "Cannot read properties of undefined"

/-- `AgentExecutor.execute` (legacy variant): run the plan, publish the
final summary and signal finished, or publish a single error message and
signal finished when planning or a step invocation throws.  Also returns
the trace of tool invocations performed. -/
def execute (tool : ToolFn) (plan : Except String PlanResponse) (ctx : ExecutionContext) (t0 : Task) :
    Task × List ToolCall :=
  match plan with
  | Except.error e =>
      (eventBusFinished (eventBusPublish t0
        (createAgentMessage (String.append "Error: " e) JVal.null ctx.contextId ctx.taskId)), [])
  | Except.ok p =>
      let steps := planSteps p
      match runSteps tool ctx steps.length 0 JVal.null [] t0 steps with
      | (LoopOutcome.fault t m, calls) =>
          (eventBusFinished (eventBusPublish t
            (createAgentMessage (String.append "Error: " m) JVal.null ctx.contextId ctx.taskId)), calls)
      | (LoopOutcome.ok t results, calls) =>
          match steps with
          | [] =>
              (eventBusFinished (eventBusPublish t
                (createAgentMessage (String.append "Error: " emptyPlanTypeError) JVal.null ctx.contextId ctx.taskId)), calls)
          | s0 :: _ =>
              let summary :=
                if steps.length > 1 then
                  String.append s!"Successfully completed {steps.length} steps:\n" (stepListText steps)
                else String.append "Successfully executed " s0.toolName
              let dataVal :=
                if steps.length == 1 then jsField (results.headD JVal.null) "result"
                else JVal.arr results
              (eventBusFinished (eventBusPublish t
                (createAgentMessage summary dataVal ctx.contextId ctx.taskId)), calls)

/-- JSON-RPC error object `{code, message}`. -/
structure RPCError where
  code : Int
  message : String

/-- The mutable state of the router: the `tasks` map (an association list with
the `Map.set` update discipline) and the fresh-uuid supply. -/
structure RouterState where
  tasks : List (Nat × Task)
  nextUuid : Nat

/-- Rendering of a supplied uuid as a string (used for generated context
ids). -/
def uuidStr (n : Nat) : String := String.append "uuid-" (Nat.repr n)

/-- `tasks.get(id)`. -/
def storeGet (l : List (Nat × Task)) (key : Nat) : Option Task :=
  ((l.find? (fun kv => kv.1 == key)).map (fun kv => kv.2))

/-- `tasks.set(id, task)`: replace in place, or append when absent. -/
def storeSet (l : List (Nat × Task)) (key : Nat) (t : Task) : List (Nat × Task) :=
  match l with
  | [] => [(key, t)]
  | kv :: rest => if kv.1 == key then (key, t) :: rest else kv :: storeSet rest key t

/-- Decoded `params` of one JSON-RPC call; each handler destructures the
fields it needs.  `none` models an absent or otherwise falsy field where
the source tests falsiness; for `contextId` the empty string stays
distinct because the source tests `contextId || uuidv4()` on a present
string. -/
structure RPCCallParams where
  message : Option Message := none
  contextId : Option String := none
  taskId : Option Nat := none

/-- `handleSendMessage`: reject a missing message, create the task in
`working` state with the caller message as the whole history, generate
the id from the supply, take the caller-supplied context id when truthy and
generate one otherwise, and store the task. -/
def handleSendMessage (p : RPCCallParams) (st : RouterState) : Except RPCError (Task × RouterState) :=
  match p.message with
  | none => Except.error { code := -32602, message := "Invalid params: message required" }
  | some msg =>
      let taskId := st.nextUuid
      let genCtx : Bool :=
        match p.contextId with
        | some c => c == ""
        | none => true
      let ctxId := if genCtx then uuidStr (st.nextUuid + 1) else (p.contextId.getD "")
      let task : Task :=
        { id := taskId
          contextId := ctxId
          status := { state := TaskState.working }
          history := [msg] }
      Except.ok (task,
        { tasks := storeSet st.tasks taskId task
          nextUuid := st.nextUuid + (if genCtx then 2 else 1) })

/-- `handleGetTaskRPC`: reject a missing id, report `-32000` for an
unknown id, and return the stored snapshot otherwise. -/
def handleGetTaskRPC (p : RPCCallParams) (st : RouterState) : Except RPCError Task :=
  match p.taskId with
  | none => Except.error { code := -32602, message := "Invalid params: taskId required" }
  | some tid =>
      match storeGet st.tasks tid with
      | none => Except.error { code := -32000, message := s!"Task not found: {tid}" }
      | some t => Except.ok t

/-- `handleCancelTask`: reject a missing id, report `-32000` for an
unknown id, and otherwise set the status to `canceled` (the source
performs no terminal-state check) and return the task. -/
def handleCancelTask (p : RPCCallParams) (st : RouterState) : Except RPCError (Task × RouterState) :=
  match p.taskId with
  | none => Except.error { code := -32602, message := "Invalid params: taskId required" }
  | some tid =>
      match storeGet st.tasks tid with
      | none => Except.error { code := -32000, message := s!"Task not found: {tid}" }
      | some t =>
          let t2 := { t with status := { state := TaskState.canceled } }
          Except.ok (t2, { st with tasks := storeSet st.tasks tid t2 })

/-- A JSON-RPC request envelope; `jsonrpc` is `none` when the field is
absent and `id` holds the raw JSON id when present. -/
structure JSONRPCRequest where
  jsonrpc : Option String
  method : String
  params : RPCCallParams
  id : Option JVal

/-- A JSON-RPC response as the router serializes it. -/
structure JSONRPCResponse where
  result : Option Task
  error : Option RPCError
  id : JVal

/-- The id fallback of the invalid-envelope branch, `request.id || null`:
a falsy id (absent, null, `0`, the empty string, `false`) becomes null. -/
def jsIdOrNull (id : Option JVal) : JVal :=
  match id with
  | some v => if v.truthy then v else JVal.null
  | none => JVal.null

/-- The method switch of `handleJSONRPC`, with the accepted aliases;
unknown methods throw `-32601`. -/
def dispatchMethod (req : JSONRPCRequest) (st : RouterState) : Except RPCError (Task × RouterState) :=
  match req.method with
  | "sendMessage" | "message/send" => handleSendMessage req.params st
  | "getTask" | "task/get" | "tasks/get" => (handleGetTaskRPC req.params st).map (fun t => (t, st))
  | "cancelTask" | "task/cancel" => handleCancelTask req.params st
  | _ => Except.error { code := -32601, message := String.append "Method not found: " req.method }

/-- `handleJSONRPC`: an envelope whose `jsonrpc` is not `"2.0"` is
rejected with `-32600` before any dispatch, with `request.id || null`
echoed; otherwise the method is dispatched and the response carries the
result or the thrown error with `request.id ?? null` echoed. -/
def handleJSONRPC (req : JSONRPCRequest) (st : RouterState) : JSONRPCResponse × RouterState :=
  if req.jsonrpc = some "2.0" then
    match dispatchMethod req st with
    | Except.ok (t, st2) =>
        ({ result := some t, error := none, id := req.id.getD JVal.null }, st2)
    | Except.error e =>
        ({ result := none, error := some e, id := req.id.getD JVal.null }, st)
  else
    ({ result := none, error := some { code := -32600, message := "Invalid Request" }, id := jsIdOrNull req.id }, st)

/-- The agent-role filter applied by both browser clients on every fetch
(`task.history.filter` keeping only agent-role entries). -/
def agentMessages (history : List Message) : List Message :=
  history.filter (fun m => decide (m.role = Role.agent))

/-- One dedup step of `pollTask`: when the agent-message count exceeds the
`shown` counter, emit exactly the slice from `shown` and advance the
counter; otherwise emit nothing. -/
def pollEmit (shown : Nat) (history : List Message) : List Message × Nat :=
  if (agentMessages history).length > shown then
    ((agentMessages history).drop shown, (agentMessages history).length)
  else ([], shown)

/-- The messages emitted over a whole sequence of fetched histories,
threading the `shown` counter through `pollEmit`. -/
def reconcile (shown : Nat) : List (List Message) → List Message
  | [] => []
  | h :: rest => (pollEmit shown h).1 ++ reconcile (pollEmit shown h).2 rest

/-- The last history of a fetch sequence (the final task snapshot). -/
def lastHist (current : List Message) : List (List Message) → List Message
  | [] => current
  | h :: rest => lastHist h rest

/-- `maxAttempts` of `pollTask` in the browser test client. -/
def maxAttempts : Nat := 30

/-- The recursive `poll` closure of `pollTask` in the browser test client,
with the guard `attempts++ >= maxAttempts` re-expressed structurally: the
fuel argument is `maxAttempts - attempts` and the second argument is the
current attempt counter, indexing the stream of observed states.  Each
call fetches once, and only a `working` observation schedules another
poll.  The value is the number of fetches performed. -/
def pollTaskLoop (obs : Nat → TaskState) : Nat → Nat → Nat
  | 0, _ => 0
  | fuel + 1, attempts =>
      1 + (if obs attempts = TaskState.working then pollTaskLoop obs fuel (attempts + 1) else 0)

/-- Total fetch count of `pollTask` on a stream of observed states. -/
def pollTaskFetches (obs : Nat → TaskState) : Nat := pollTaskLoop obs maxAttempts 0

/-- The clearing condition of the SDK client interval `startTaskPolling`
interval: only `completed` and `failed` observations clear it. -/
def startTaskPollingClears : TaskState → Bool
  | TaskState.completed => true
  | TaskState.failed => true
  | _ => false

/-- Whether the `startTaskPolling` interval is still active after the
first `n` ticks against a stream of observed states. -/
def intervalActiveAfter (obs : Nat → TaskState) : Nat → Bool
  | 0 => true
  | n + 1 => intervalActiveAfter obs n && !(startTaskPollingClears (obs n))

/-! Concrete instances used by the evaluation theorems below. -/

/-- Scenario E user utterance. -/
def userMessageE : Message := { role := Role.user, parts := [Part.text "create three linked records"] }

/-- Scenario E execution context. -/
def execCtxE : ExecutionContext := { message := userMessageE, contextId := "ctx-e", taskId := 11 }

/-- Scenario E freshly created task. -/
def taskE : Task :=
  { id := 11, contextId := "ctx-e", status := { state := TaskState.working }, history := [userMessageE] }

/-- Scenario E tool registry: `tool_a` succeeds with an object carrying an
id, every other tool (in particular `tool_b`) faults with `boom`. -/
def toolsE : ToolFn := fun name _ =>
  if name == "tool_a" then Except.ok (JVal.obj [("id", JVal.str "a-1")]) else Except.error "boom"

/-- Scenario E three-step plan whose second step faults. -/
def planE : PlanResponse :=
  { toolName := "", toolParams := []
    steps := some
      [ { toolName := "tool_a", toolParams := [("x", JVal.num 1)] }
      , { toolName := "tool_b", toolParams := [("accountId", JVal.str previousResultSentinel)] }
      , { toolName := "tool_c", toolParams := [] } ] }

/-- A late event published into an already canceled task. -/
def agentNoteK : Message := { role := Role.agent, parts := [Part.text "late event"] }

/-- A canceled (terminal) task. -/
def canceledTaskK : Task :=
  { id := 21, contextId := "ctx-k", status := { state := TaskState.canceled }, history := [] }

/-- A failed (terminal) task with a recorded reason. -/
def failedTaskK : Task :=
  { id := 22, contextId := "ctx-k", status := { state := TaskState.failed, message := some "boom" }, history := [] }

/-- A completed (terminal) task. -/
def completedTaskK : Task :=
  { id := 23, contextId := "ctx-k", status := { state := TaskState.completed }, history := [] }

/-- A router state holding only the completed task. -/
def routerStateK : RouterState := { tasks := [(23, completedTaskK)], nextUuid := 24 }

/-- Scenario D completed task. -/
def completedTaskD : Task :=
  { id := 7, contextId := "ctx-d", status := { state := TaskState.completed }, history := [] }

/-- Scenario D router state. -/
def routerStateD : RouterState := { tasks := [(7, completedTaskD)], nextUuid := 8 }

/-- A working task used to exercise the cancel path on a live task. -/
def workingTaskD2 : Task :=
  { id := 5, contextId := "ctx-d2", status := { state := TaskState.working }, history := [] }

/-- A router state holding only the working task. -/
def routerStateD2 : RouterState := { tasks := [(5, workingTaskD2)], nextUuid := 6 }

/-- A request with a malformed envelope and the perfectly valid id `0`. -/
def requestBad : JSONRPCRequest :=
  { jsonrpc := some "1.0", method := "message/send", params := {}, id := some (JVal.num 0) }

/-- A well-formed get-task request. -/
def requestGet : JSONRPCRequest :=
  { jsonrpc := some "2.0", method := "tasks/get", params := { taskId := some 0 }, id := some (JVal.str "r-1") }

/-- The empty router state with a fresh supply. -/
def routerState0 : RouterState := { tasks := [], nextUuid := 0 }

/-- A user message for the send-message scenarios. -/
def userMessage10 : Message := { role := Role.user, parts := [Part.text "Create an account for Acme"] }

/-- Scenario A user utterance. -/
def userMessageA : Message := { role := Role.user, parts := [Part.text "Create an account for Nike"] }

/-- Scenario A created-account result. -/
def accountA : JVal := JVal.obj [("id", JVal.str "acc-1"), ("name", JVal.str "Nike")]

/-- Scenario A single plan step. -/
def stepA : PlanStep := { toolName := "create_account", toolParams := [("name", JVal.str "Nike")] }

/-- Scenario A single-step plan (the `{toolName, toolParams}` form). -/
def planA : PlanResponse :=
  { toolName := "create_account", toolParams := [("name", JVal.str "Nike")], steps := none }

/-- Scenario A tool registry. -/
def toolsA : ToolFn := fun name _ =>
  if name == "create_account" then Except.ok accountA else Except.error "unknown tool"

/-- Scenario A execution context. -/
def execCtxA : ExecutionContext := { message := userMessageA, contextId := "ctx-a", taskId := 3 }

/-- Scenario A freshly created task. -/
def taskA : Task :=
  { id := 3, contextId := "ctx-a", status := { state := TaskState.working }, history := [userMessageA] }

/-- Scenario B first plan step. -/
def stepB1 : PlanStep :=
  { toolName := "create_account", toolParams := [("name", JVal.str "Nike"), ("type", JVal.str "advertiser")] }

/-- Scenario B second plan step, whose `accountId` is the placeholder. -/
def stepB2 : PlanStep :=
  { toolName := "create_order"
    toolParams := [("accountId", JVal.str previousResultSentinel), ("name", JVal.str "Nike"), ("budget", JVal.num 500)] }

/-- Scenario B two-step plan. -/
def planB : PlanResponse := { toolName := "", toolParams := [], steps := some [stepB1, stepB2] }

/-- Scenario B step-1 result. -/
def accountB : JVal := JVal.obj [("id", JVal.str "acc-1"), ("name", JVal.str "Nike")]

/-- Scenario B tool registry. -/
def toolsB : ToolFn := fun name _ =>
  if name == "create_account" then Except.ok accountB else Except.ok (JVal.obj [("id", JVal.str "ord-1")])

/-- Scenario B user utterance. -/
def userMessageB : Message :=
  { role := Role.user, parts := [Part.text "Create an account for Nike and an order with budget 500"] }

/-- Scenario B execution context. -/
def execCtxB : ExecutionContext := { message := userMessageB, contextId := "ctx-b", taskId := 4 }

/-- Scenario B freshly created task. -/
def taskB : Task :=
  { id := 4, contextId := "ctx-b", status := { state := TaskState.working }, history := [userMessageB] }

/-- Scenario B observed first tool call. -/
def callB1 : ToolCall := ("create_account", stepB1.toolParams)

/-- Scenario B observed second tool call, with the placeholder resolved. -/
def callB2 : ToolCall :=
  ("create_order", [("accountId", JVal.str "acc-1"), ("name", JVal.str "Nike"), ("budget", JVal.num 500)])

/-- A single-step plan whose only step carries the placeholder. -/
def planOneP : PlanResponse :=
  { toolName := "lookup_order", toolParams := [("orderId", JVal.str previousResultSentinel)], steps := none }

/-- A tool registry that accepts anything. -/
def toolsP : ToolFn := fun _ _ => Except.ok (JVal.obj [("id", JVal.str "o-9")])

/-- User utterance for the step-1 placeholder run. -/
def userMessageP : Message := { role := Role.user, parts := [Part.text "look up my order"] }

/-- Execution context for the step-1 placeholder run. -/
def execCtxP : ExecutionContext := { message := userMessageP, contextId := "ctx-p", taskId := 12 }

/-- Freshly created task for the step-1 placeholder run. -/
def taskP : Task :=
  { id := 12, contextId := "ctx-p", status := { state := TaskState.working }, history := [userMessageP] }

/-- The single step of the verbatim-sentinel run. -/
def stepQ : PlanStep := { toolName := "search_products", toolParams := [("query", JVal.str previousResultSentinel)] }

/-- Single-step plan for the verbatim-sentinel run. -/
def planQ : PlanResponse := { toolName := "", toolParams := [], steps := some [stepQ] }

/-- Tool registry for the verbatim-sentinel run. -/
def toolsQ : ToolFn := fun _ _ => Except.ok (JVal.str "results")

/-- User utterance for the verbatim-sentinel run. -/
def userMessageQ : Message := { role := Role.user, parts := [Part.text "search"] }

/-- Execution context for the verbatim-sentinel run. -/
def execCtxQ : ExecutionContext := { message := userMessageQ, contextId := "ctx-q", taskId := 13 }

/-- Freshly created task for the verbatim-sentinel run. -/
def taskQ : Task :=
  { id := 13, contextId := "ctx-q", status := { state := TaskState.working }, history := [userMessageQ] }

/-- A user message for the reconciler run. -/
def mUser5 : Message := { role := Role.user, parts := [Part.text "hi"] }

/-- First agent message for the reconciler run. -/
def mAgentA5 : Message := { role := Role.agent, parts := [Part.text "step one done"] }

/-- Second agent message for the reconciler run. -/
def mAgentB5 : Message := { role := Role.agent, parts := [Part.text "all done"] }

/-- Four polls of one growing history, including a repeated unchanged
fetch. -/
def observed5 : List (List Message) :=
  [[mUser5], [mUser5, mAgentA5], [mUser5, mAgentA5], [mUser5, mAgentA5, mAgentB5]]

/-- An observation stream that works twice and then completes. -/
def obsWitness : Nat → TaskState := fun j => if j < 2 then TaskState.working else TaskState.completed

/-! Helper lemmas. -/

/-- A first step never substitutes: the initial previous result is null. -/
theorem resolveParams_null (ps : Params) : resolveParams JVal.null ps = ps := by
  simp [resolveParams, JVal.truthy]

/-- When the previous result fails the truthiness test, the parameters are
passed through untouched. -/
theorem resolveParams_of_falsy {prev : JVal} (ps : Params)
    (h : (prev.truthy && (jsField prev "id").truthy) = false) :
    resolveParams prev ps = ps := by
  simp [resolveParams, h]

/-- When the previous result passes the truthiness test, substitution is
the top-level map replacing sentinel-valued entries by the id field. -/
theorem resolveParams_of_truthy {prev : JVal} (ps : Params)
    (h : (prev.truthy && (jsField prev "id").truthy) = true) :
    resolveParams prev ps = ps.map (fun kv =>
      if kv.2.isStr previousResultSentinel then (kv.1, jsField prev "id") else kv) := by
  simp [resolveParams, h]

/-- Extraction of the raw result from the accumulated `{tool, result}`
record. -/
theorem jsField_result (name : String) (r : JVal) :
    jsField (JVal.obj [("tool", JVal.str name), ("result", r)]) "result" = r := rfl

/-- A key below every stored key is absent from the store. -/
theorem storeGet_eq_none_of_lt {l : List (Nat × Task)} {n : Nat}
    (h : ∀ kv ∈ l, kv.1 < n) : storeGet l n = none := by
  induction l with
  | nil => rfl
  | cons kv rest ih =>
      have hk : kv.1 < n := h kv (List.mem_cons_self kv rest)
      have hne : (kv.1 == n) = false := by
        simp only [beq_eq_false_iff_ne]
        omega
      simp only [storeGet, List.find?_cons, hne]
      exact ih (fun kv2 hkv2 => h kv2 (List.mem_cons_of_mem kv hkv2))

/-- Looking up the key just written returns the written task. -/
theorem storeGet_storeSet_self (l : List (Nat × Task)) (k : Nat) (t : Task) :
    storeGet (storeSet l k t) k = some t := by
  induction l with
  | nil => simp [storeSet, storeGet]
  | cons kv rest ih =>
      by_cases hk : (kv.1 == k) = true
      · simp [storeSet, hk, storeGet]
      · simp only [storeSet, hk, Bool.false_eq_true, if_false]
        simp only [storeGet, List.find?_cons, hk]
        exact ih

/-- Every entry of an updated store is the written entry or an original
one. -/
theorem storeSet_mem {l : List (Nat × Task)} {k : Nat} {t : Task} {kv : Nat × Task}
    (h : kv ∈ storeSet l k t) : kv.1 = k ∨ kv ∈ l := by
  induction l with
  | nil =>
      simp only [storeSet, List.mem_singleton] at h
      subst h
      exact Or.inl rfl
  | cons hd rest ih =>
      by_cases hk : (hd.1 == k) = true
      · simp only [storeSet, hk, if_true, List.mem_cons] at h
        rcases h with h | h
        · subst h; exact Or.inl rfl
        · exact Or.inr (List.mem_cons_of_mem hd h)
      · simp only [storeSet, hk, Bool.false_eq_true, if_false, List.mem_cons] at h
        rcases h with h | h
        · subst h; exact Or.inr (List.mem_cons_self kv rest)
        · rcases ih h with h2 | h2
          · exact Or.inl h2
          · exact Or.inr (List.mem_cons_of_mem hd h2)

/-! Claim C2. -/

/-- Counterexample to claim C2: publishing into a canceled (terminal) task
appends to its history, and signalling finished on a failed (terminal)
task overwrites the state with completed; the source installs no
terminal-state guard. -/
theorem c2_counterexample :
    isTerminal canceledTaskK.status.state = true ∧
    canceledTaskK.history.length = 0 ∧
    (eventBusPublish canceledTaskK agentNoteK).history.length = 1 ∧
    isTerminal failedTaskK.status.state = true ∧
    (eventBusFinished failedTaskK).status.state = TaskState.completed :=
  ⟨rfl, rfl, rfl, rfl, rfl⟩

/-- Claim C2 (amended): after a terminal state, `publish` still appends
the event to the history, `finished` still overwrites the status with
`completed`, and a cancel request on an existing terminal task still
overwrites the state with `canceled`; none of the three calls is guarded
by the terminal state. -/
theorem c2_theorem (t : Task) (m : Message) (st : RouterState) (tid : Nat) (t2 : Task)
    (ht : isTerminal t.status.state = true)
    (hget : storeGet st.tasks tid = some t2)
    (ht2 : isTerminal t2.status.state = true) :
    (eventBusPublish t m).history = t.history ++ [m] ∧
    (eventBusPublish t m).history.length = t.history.length + 1 ∧
    (eventBusFinished t).status.state = TaskState.completed ∧
    (∃ u su, handleCancelTask { taskId := some tid } st = Except.ok (u, su) ∧
       u.status.state = TaskState.canceled) := by
  refine ⟨rfl, by simp [eventBusPublish], rfl, ?_⟩
  refine ⟨{ t2 with status := { state := TaskState.canceled } },
    { st with tasks := storeSet st.tasks tid { t2 with status := { state := TaskState.canceled } } },
    ?_, rfl⟩
  simp [handleCancelTask, hget]

/-- Witness for C2 at the concrete terminal tasks. -/
theorem c2_witness :
    (eventBusPublish canceledTaskK agentNoteK).history = canceledTaskK.history ++ [agentNoteK] ∧
    (eventBusPublish canceledTaskK agentNoteK).history.length = canceledTaskK.history.length + 1 ∧
    (eventBusFinished canceledTaskK).status.state = TaskState.completed ∧
    (∃ u su, handleCancelTask { taskId := some 23 } routerStateK = Except.ok (u, su) ∧
       u.status.state = TaskState.canceled) :=
  c2_theorem canceledTaskK agentNoteK routerStateK 23 completedTaskK rfl rfl rfl

/-! Claim C3. -/

/-- Counterexample to claim C3 (Scenario D): cancelling an already
completed task does not return it unchanged; the router re-marks it
canceled. -/
theorem c3_counterexample :
    completedTaskD.status.state = TaskState.completed ∧
    (handleCancelTask { taskId := some 7 } routerStateD).toOption.map (fun r => r.1.status.state)
      = some TaskState.canceled :=
  ⟨rfl, rfl⟩

/-- Claim C3 (amended): a cancel request on an existing task always sets
its state to canceled and returns it, whatever its current state
(working or terminal), writing the change back to the store; a cancel
request on an absent task yields the -32000 TaskNotFound error. -/
theorem c3_theorem (st : RouterState) (tid : Nat) :
    (∀ t, storeGet st.tasks tid = some t →
       handleCancelTask { taskId := some tid } st =
         Except.ok ({ t with status := { state := TaskState.canceled } },
           { st with tasks := storeSet st.tasks tid { t with status := { state := TaskState.canceled } } })) ∧
    (storeGet st.tasks tid = none →
       handleCancelTask { taskId := some tid } st =
         Except.error { code := -32000, message := s!"Task not found: {tid}" }) := by
  constructor
  · intro t hget
    simp [handleCancelTask, hget]
  · intro hget
    simp [handleCancelTask, hget]

/-- Witness for C3: cancelling a working task cancels it, and cancelling
an unknown id reports TaskNotFound. -/
theorem c3_witness :
    handleCancelTask { taskId := some 5 } routerStateD2 =
      Except.ok ({ workingTaskD2 with status := { state := TaskState.canceled } },
        { routerStateD2 with
            tasks := storeSet routerStateD2.tasks 5 { workingTaskD2 with status := { state := TaskState.canceled } } }) ∧
    handleCancelTask { taskId := some 6 } routerStateD2 =
      Except.error { code := -32000, message := "Task not found: 6" } :=
  ⟨(c3_theorem routerStateD2 5).1 workingTaskD2 rfl, (c3_theorem routerStateD2 6).2 rfl⟩

/-! Claim C7. -/

/-- Counterexample to claim C7: the request has the present, perfectly
parseable id `0`, yet the invalid-envelope response echoes null, because
the source computes the id with truthiness fallback there. -/
theorem c7_counterexample :
    requestBad.id = some (JVal.num 0) ∧
    (handleJSONRPC requestBad routerState0).1.id = JVal.null ∧
    (handleJSONRPC requestBad routerState0).1.error
      = some { code := -32600, message := "Invalid Request" } :=
  ⟨rfl, rfl, rfl⟩

/-- Claim C7 (amended): a request whose `jsonrpc` is not `"2.0"` gets the
-32600 protocol error before any dispatch, with no result and the router
state unchanged; every dispatch-path response echoes `request.id ?? null`;
and a truthy request id is echoed exactly on every path, while on the
invalid-envelope path a falsy present id (such as `0`) collapses to null. -/
theorem c7_theorem (req : JSONRPCRequest) (st : RouterState) :
    (req.jsonrpc ≠ some "2.0" →
       (handleJSONRPC req st).1.error = some { code := -32600, message := "Invalid Request" } ∧
       (handleJSONRPC req st).1.result = none ∧
       (handleJSONRPC req st).2 = st) ∧
    (req.jsonrpc = some "2.0" →
       (handleJSONRPC req st).1.id = req.id.getD JVal.null) ∧
    (∀ v, req.id = some v → v.truthy = true →
       (handleJSONRPC req st).1.id = v) := by
  by_cases hv : req.jsonrpc = some "2.0"
  · refine ⟨fun h => absurd hv h, fun _ => ?_, fun v hid htr => ?_⟩
    · simp only [handleJSONRPC, if_pos hv]
      cases hd : dispatchMethod req st with
      | ok p => cases p with | mk t st2 => rfl
      | error e => rfl
    · simp only [handleJSONRPC, if_pos hv]
      cases hd : dispatchMethod req st with
      | ok p => cases p with | mk t st2 => simp [hid]
      | error e => simp [hid]
  · refine ⟨fun _ => ?_, fun h => absurd h hv, fun v hid htr => ?_⟩
    · simp [handleJSONRPC, hv]
    · simp only [handleJSONRPC, if_neg hv, jsIdOrNull, hid]
      simp [htr]

/-- Witness for C7: the malformed envelope leaves the state untouched with
the -32600 error, and a valid request has its string id echoed. -/
theorem c7_witness :
    (handleJSONRPC requestBad routerState0).2 = routerState0 ∧
    (handleJSONRPC requestBad routerState0).1.error
      = some { code := -32600, message := "Invalid Request" } ∧
    (handleJSONRPC requestGet routerState0).1.id = JVal.str "r-1" :=
  ⟨((c7_theorem requestBad routerState0).1 (by simp [requestBad])).2.2,
   ((c7_theorem requestBad routerState0).1 (by simp [requestBad])).1,
   (c7_theorem requestGet routerState0).2.1 rfl⟩

/-! Claim C10. -/

/-- Counterexample to claim C10: the caller supplies the present (empty
string) contextId, yet the created task carries a freshly generated one,
because the source falls back on truthiness rather than presence. -/
theorem c10_counterexample :
    (handleSendMessage { message := some userMessage10, contextId := some "" } routerState0).toOption.map
        (fun r => r.1.contextId) = some (uuidStr 1) ∧
    uuidStr 1 ≠ "" :=
  ⟨rfl, by decide⟩

/-- Claim C10 (amended): every successful send-message creates a fresh
task: its id is the next supply value and is absent from the store before
insertion, the status is working with no failure reason, the history is
exactly the caller message, the contextId is the caller-supplied one when
present and non-empty and a freshly generated one when absent or empty,
the task is stored under its id, the supply strictly advances with the
invariant preserved, and a second send-message returns a different id. -/
theorem c10_theorem (st : RouterState) (msg : Message) (ctxOpt : Option String)
    (hfresh : ∀ kv ∈ st.tasks, kv.1 < st.nextUuid) :
    ∃ t st2, handleSendMessage { message := some msg, contextId := ctxOpt } st = Except.ok (t, st2) ∧
      t.id = st.nextUuid ∧
      storeGet st.tasks t.id = none ∧
      t.status.state = TaskState.working ∧
      t.status.message = none ∧
      t.history = [msg] ∧
      (∀ c, ctxOpt = some c → c ≠ "" → t.contextId = c) ∧
      ((ctxOpt = none ∨ ctxOpt = some "") → t.contextId = uuidStr (st.nextUuid + 1)) ∧
      storeGet st2.tasks t.id = some t ∧
      st.nextUuid < st2.nextUuid ∧
      (∀ kv ∈ st2.tasks, kv.1 < st2.nextUuid) ∧
      (∀ msg2 ctx2, (handleSendMessage { message := some msg2, contextId := ctx2 } st2).toOption.map
          (fun r => r.1.id) = some st2.nextUuid ∧ st2.nextUuid ≠ t.id) := by
  refine ⟨_, _, rfl, rfl, storeGet_eq_none_of_lt hfresh, rfl, rfl, rfl, ?_, ?_,
    storeGet_storeSet_self _ _ _, ?_, ?_, ?_⟩
  · intro c hc hne
    subst hc
    have hb : (c == "") = false := beq_eq_false_iff_ne.mpr hne
    simp [hb]
  · intro hcase
    rcases hcase with h | h <;> subst h <;> simp
  · dsimp only
    split <;> omega
  · intro kv hkv
    dsimp only at hkv
    rcases storeSet_mem hkv with h | h
    · rw [h]; dsimp only; split <;> omega
    · have := hfresh kv h
      dsimp only; split <;> omega
  · intro msg2 ctx2
    refine ⟨rfl, ?_⟩
    show st.nextUuid + _ ≠ st.nextUuid
    split <;> omega

/-- Witness for C10 at an empty store with a caller-supplied contextId. -/
theorem c10_witness :
    ∃ t st2,
      handleSendMessage { message := some userMessage10, contextId := some "ctx-A" } routerState0
        = Except.ok (t, st2) ∧
      t.id = routerState0.nextUuid ∧
      t.status.state = TaskState.working ∧
      t.history = [userMessage10] ∧
      t.contextId = "ctx-A" := by
  obtain ⟨t, st2, heq, hid, hnone, hstate, hmsg, hhist, hctx1, hrest⟩ :=
    c10_theorem routerState0 userMessage10 (some "ctx-A")
      (by intro kv h; exact absurd h (List.not_mem_nil kv))
  exact ⟨t, st2, heq, hid, hstate, hhist, hctx1 "ctx-A" rfl (by decide)⟩

/-! Claim C8. -/

/-- The poll loop performs at most as many fetches as it has fuel. -/
theorem pollTaskLoop_le (obs : Nat → TaskState) :
    ∀ (fuel a : Nat), pollTaskLoop obs fuel a ≤ fuel := by
  intro fuel
  induction fuel with
  | zero => intro a; simp [pollTaskLoop]
  | succ f ih =>
      intro a
      simp only [pollTaskLoop]
      split
      · have := ih (a + 1); omega
      · omega

/-- The poll loop performs exactly one fetch past the last working
observation. -/
theorem pollTaskLoop_stops (obs : Nat → TaskState) :
    ∀ (k fuel a : Nat), k < fuel →
      (∀ j, j < k → obs (a + j) = TaskState.working) →
      obs (a + k) ≠ TaskState.working →
      pollTaskLoop obs fuel a = k + 1 := by
  intro k
  induction k with
  | zero =>
      intro fuel a hk hw hnw
      cases fuel with
      | zero => omega
      | succ f =>
          have h0 : obs a ≠ TaskState.working := by simpa using hnw
          simp [pollTaskLoop, h0]
  | succ k ih =>
      intro fuel a hk hw hnw
      cases fuel with
      | zero => omega
      | succ f =>
          have h0 : obs a = TaskState.working := by simpa using hw 0 (by omega)
          have ht : pollTaskLoop obs f (a + 1) = k + 1 := by
            refine ih f (a + 1) (by omega) (fun j hj => ?_) ?_
            · have hj2 := hw (j + 1) (by omega)
              have e : a + 1 + j = a + (j + 1) := by omega
              rw [e]; exact hj2
            · have e : a + 1 + k = a + (k + 1) := by omega
              rw [e]; exact hnw
          simp only [pollTaskLoop, if_pos h0, ht]
          omega

/-- The interval stays active while no observation clears it. -/
theorem intervalActive_of_never_clears (obs : Nat → TaskState) :
    ∀ n, (∀ j, j < n → startTaskPollingClears (obs j) = false) →
      intervalActiveAfter obs n = true := by
  intro n
  induction n with
  | zero => intro _; rfl
  | succ m ih =>
      intro h
      simp only [intervalActiveAfter]
      rw [ih (fun j hj => h j (by omega)), h m (by omega)]
      rfl

/-- Counterexample to claim C8: canceled is a terminal state, yet a fetch
observing it does not clear the startTaskPolling interval, which is still
active after fifty such observations; this loop has no attempt bound. -/
theorem c8_counterexample :
    isTerminal TaskState.canceled = true ∧
    startTaskPollingClears TaskState.canceled = false ∧
    intervalActiveAfter (fun _ => TaskState.canceled) 50 = true :=
  ⟨rfl, rfl, by decide⟩

/-- Claim C8 (amended): the jsonrpc test client poll loop performs at most
maxAttempts fetches and stops with exactly one fetch past the first
non-working observation; the SDK client interval clears exactly on
completed or failed, and stays active for ever while every observation is
working or canceled. -/
theorem c8_theorem :
    (∀ obs, pollTaskFetches obs ≤ maxAttempts) ∧
    (∀ obs k, k < maxAttempts → (∀ j, j < k → obs j = TaskState.working) →
       obs k ≠ TaskState.working → pollTaskFetches obs = k + 1) ∧
    (∀ s, startTaskPollingClears s = true ↔ (s = TaskState.completed ∨ s = TaskState.failed)) ∧
    (∀ obs n, (∀ j, j < n → startTaskPollingClears (obs j) = false) →
       intervalActiveAfter obs n = true) := by
  refine ⟨fun obs => pollTaskLoop_le obs maxAttempts 0,
    fun obs k hk hw hnw => ?_, fun s => ?_,
    fun obs n h => intervalActive_of_never_clears obs n h⟩
  · exact pollTaskLoop_stops obs k maxAttempts 0 hk (fun j hj => by simpa using hw j hj)
      (by simpa using hnw)
  · cases s <;> simp [startTaskPollingClears]

/-- Witness for C8: on a stream that works twice then completes the loop
fetches exactly three times, and the interval survives forty working
observations. -/
theorem c8_witness :
    pollTaskFetches obsWitness = 3 ∧
    intervalActiveAfter (fun _ => TaskState.working) 40 = true :=
  ⟨c8_theorem.2.1 obsWitness 2 (by decide) (by decide) (by decide),
   c8_theorem.2.2.2 (fun _ => TaskState.working) 40 (fun j hj => rfl)⟩

/-! Claim C5. -/

/-- On a fetched history extending the one whose agent count is already
shown, the dedup step emits exactly the missing agent slice and advances
the counter to the new count. -/
theorem pollEmit_prefix_eq {h0 h1 : List Message} (hp : List.IsPrefix h0 h1) :
    pollEmit (agentMessages h0).length h1 =
      ((agentMessages h1).drop (agentMessages h0).length, (agentMessages h1).length) := by
  have hpf : List.IsPrefix (agentMessages h0) (agentMessages h1) :=
    List.IsPrefix.filter _ hp
  have hle : (agentMessages h0).length ≤ (agentMessages h1).length := hpf.length_le
  by_cases hlt : (agentMessages h1).length > (agentMessages h0).length
  · simp only [pollEmit, if_pos hlt]
  · have heq : (agentMessages h1).length = (agentMessages h0).length := by omega
    simp only [pollEmit, if_neg hlt]
    rw [← heq, List.drop_length]

/-- The first history of a poll chain is a prefix of the last one. -/
theorem chain_prefix_lastHist :
    ∀ (hs : List (List Message)) (h0 : List Message),
      List.Chain List.IsPrefix h0 hs → List.IsPrefix h0 (lastHist h0 hs) := by
  intro hs
  induction hs with
  | nil => intro h0 _; exact List.prefix_refl h0
  | cons h rest ih =>
      intro h0 hc
      cases hc with
      | cons hp hc2 => exact hp.trans (ih h hc2)

/-- Dropping a shown count from a list and appending the tail of an
extension recovers the drop from the extension. -/
theorem drop_prefix_append {α : Type*} {l1 l2 : List α} (h : List.IsPrefix l1 l2) {n : Nat}
    (hn : n ≤ l1.length) :
    l1.drop n ++ l2.drop l1.length = l2.drop n := by
  obtain ⟨t, rfl⟩ := h
  rw [List.drop_append_of_le_length hn, List.drop_left]

/-- Over any chain of histories each extending the previous one, the
reconciler emits exactly the agent messages of the last history that lie
past the initially shown count. -/
theorem reconcile_chain :
    ∀ (hs : List (List Message)) (h0 : List Message),
      List.Chain List.IsPrefix h0 hs →
      reconcile (agentMessages h0).length hs =
        (agentMessages (lastHist h0 hs)).drop (agentMessages h0).length := by
  intro hs
  induction hs with
  | nil =>
      intro h0 _
      simp [reconcile, lastHist, List.drop_length]
  | cons h rest ih =>
      intro h0 hc
      cases hc with
      | cons hp hc2 =>
          simp only [reconcile, pollEmit_prefix_eq hp]
          rw [ih h hc2]
          exact drop_prefix_append (List.IsPrefix.filter _ (chain_prefix_lastHist rest h hc2))
            (List.IsPrefix.filter _ hp).length_le

/-- Claim C5 (confirmed): across any number of polls whose histories each
extend the previous one (append-only delivery), the messages emitted by
the dedup slice are exactly the agent-role subset of the final history,
in order, with no duplicates and no omissions; and re-running the emit
step on an unchanged history emits nothing. -/
theorem c5_theorem :
    (∀ observed : List (List Message), List.Chain List.IsPrefix [] observed →
       reconcile 0 observed = agentMessages (lastHist [] observed)) ∧
    (∀ s h, (pollEmit (pollEmit s h).2 h).1 = []) := by
  constructor
  · intro observed hc
    have h := reconcile_chain observed [] hc
    have e : (agentMessages ([] : List Message)).length = 0 := rfl
    rw [e, List.drop_zero] at h
    exact h
  · intro s h
    by_cases hlt : (agentMessages h).length > s
    · simp [pollEmit, hlt]
    · simp [pollEmit, hlt]

/-- Witness for C5 over four polls with a duplicate fetch. -/
theorem c5_witness :
    reconcile 0 observed5 = agentMessages (lastHist [] observed5) ∧
    (pollEmit (pollEmit 0 [mUser5, mAgentA5]).2 [mUser5, mAgentA5]).1 = [] :=
  ⟨c5_theorem.1 observed5
     (List.Chain.cons ⟨[mUser5], rfl⟩
       (List.Chain.cons ⟨[mAgentA5], rfl⟩
         (List.Chain.cons (List.prefix_refl _)
           (List.Chain.cons ⟨[mAgentB5], rfl⟩ List.Chain.nil)))),
   c5_theorem.2 0 [mUser5, mAgentA5]⟩

/-! Executor helper lemmas. -/

/-- The trace returned by execute is the trace of the step loop. -/
theorem execute_calls (tool : ToolFn) (ctx : ExecutionContext) (p : PlanResponse) (t0 : Task) :
    (execute tool (Except.ok p) ctx t0).2 =
      (runSteps tool ctx (planSteps p).length 0 JVal.null [] t0 (planSteps p)).2 := by
  rcases hps : planSteps p with _ | ⟨s0, rest⟩
  · simp only [execute, hps]
    cases hr : runSteps tool ctx ([] : List PlanStep).length 0 JVal.null [] t0 [] with
    | mk out calls => cases out <;> rfl
  · simp only [execute, hps]
    cases hr : runSteps tool ctx (s0 :: rest).length 0 JVal.null [] t0 (s0 :: rest) with
    | mk out calls => cases out <;> rfl

/-- Every entry of the step-loop trace invokes the step at its index with
the parameters resolved against the initial previous result (for the
first entry) or against the successful result of the previous trace entry. -/
theorem runSteps_calls (tool : ToolFn) (ctx : ExecutionContext) (total : Nat) :
    ∀ (steps : List PlanStep) (idx : Nat) (prev : JVal) (results : List JVal) (t : Task)
      (k : Nat) (c : ToolCall),
      (runSteps tool ctx total idx prev results t steps).2[k]? = some c →
      ∃ s, steps[k]? = some s ∧
        ((k = 0 ∧ c = (s.toolName, resolveParams prev s.toolParams)) ∨
         (∃ j cj r, k = j + 1 ∧
            (runSteps tool ctx total idx prev results t steps).2[j]? = some cj ∧
            tool cj.1 cj.2 = Except.ok r ∧
            c = (s.toolName, resolveParams r s.toolParams))) := by
  intro steps
  induction steps with
  | nil =>
      intro idx prev results t k c hc
      simp [runSteps] at hc
  | cons s rest ih =>
      intro idx prev results t k c hc
      simp only [runSteps] at hc ⊢
      cases htool : tool s.toolName (resolveParams prev s.toolParams) with
      | error m =>
          rw [htool] at hc
          dsimp only at hc
          cases k with
          | zero =>
              simp only [List.getElem?_cons_zero, Option.some.injEq] at hc
              exact ⟨s, by simp, Or.inl ⟨rfl, hc.symm⟩⟩
          | succ k2 =>
              simp at hc
      | ok r =>
          rw [htool] at hc
          dsimp only at hc
          cases k with
          | zero =>
              simp only [List.getElem?_cons_zero, Option.some.injEq] at hc
              exact ⟨s, by simp, Or.inl ⟨rfl, hc.symm⟩⟩
          | succ k2 =>
              simp only [List.getElem?_cons_succ] at hc
              obtain ⟨s2, hs2, hdisj⟩ := ih (idx + 1) r
                (results ++ [JVal.obj [("tool", JVal.str s.toolName), ("result", r)]])
                (if total > 1 then
                    eventBusPublish t
                      (createAgentMessage (stepProgressText idx total s.toolName) r ctx.contextId ctx.taskId)
                  else t)
                k2 c hc
              refine ⟨s2, by simpa using hs2, Or.inr ?_⟩
              rcases hdisj with ⟨hk0, hc0⟩ | ⟨j, cj, r2, hkj, hgetj, htool2, hc2⟩
              · subst hk0
                exact ⟨0, (s.toolName, resolveParams prev s.toolParams), r, rfl,
                  by simp, htool, hc0⟩
              · subst hkj
                exact ⟨j + 1, cj, r2, rfl, by simpa using hgetj, htool2, hc2⟩

/-! Claim C1. -/

/-- Claim C1 (code bug, evaluated at Scenario E): when step 2 of a
three-step plan faults, the remaining step is indeed not attempted (the
trace has exactly the first two invocations) and exactly one error
message is published after the step-1 progress message; but the task ends
in state completed with no failure reason, not in state failed, because
the executor catch branch publishes the error and then signals finished,
which the event bus maps to completed; the router catch that would set
failed is unreachable. -/
theorem c1_theorem :
    (execute toolsE (Except.ok planE) execCtxE taskE).1.status.state = TaskState.completed ∧
    (execute toolsE (Except.ok planE) execCtxE taskE).1.status.state ≠ TaskState.failed ∧
    (execute toolsE (Except.ok planE) execCtxE taskE).1.status.message = none ∧
    (execute toolsE (Except.ok planE) execCtxE taskE).1.history =
      [userMessageE,
       createAgentMessage "Step 1/3: Successfully executed tool_a"
         (JVal.obj [("id", JVal.str "a-1")]) "ctx-e" 11,
       createAgentMessage "Error: Tool execution failed: boom" JVal.null "ctx-e" 11] ∧
    (execute toolsE (Except.ok planE) execCtxE taskE).2 =
      [("tool_a", [("x", JVal.num 1)]), ("tool_b", [("accountId", JVal.str "a-1")])] :=
  ⟨rfl, by decide, rfl, rfl, rfl⟩

/-! Claim C6. -/

/-- Claim C6 (confirmed): a send-message whose plan is a single successful
step with a truthy result takes the task from working to completed, with
a final history of exactly two messages: the user message followed by one
agent summary message whose parts are the text summary and a data
fragment carrying the step result; no intermediate per-step message is
published and the tool is invoked once with the verbatim parameters. -/
theorem c6_theorem
    (tool : ToolFn) (p : PlanResponse) (s : PlanStep) (r : JVal)
    (ctx : ExecutionContext) (t0 : Task) (userMsg : Message)
    (hsteps : planSteps p = [s])
    (htool : tool s.toolName s.toolParams = Except.ok r)
    (hr : r.truthy = true)
    (hstate : t0.status.state = TaskState.working)
    (hhist : t0.history = [userMsg]) :
    (execute tool (Except.ok p) ctx t0).1.status.state = TaskState.completed ∧
    (execute tool (Except.ok p) ctx t0).1.history =
      [userMsg,
       { role := Role.agent
         parts := [Part.text (String.append "Successfully executed " s.toolName), Part.data r]
         contextId := some ctx.contextId
         taskId := some ctx.taskId }] ∧
    (execute tool (Except.ok p) ctx t0).2 = [(s.toolName, s.toolParams)] := by
  have hrun : runSteps tool ctx 1 0 JVal.null [] t0 [s] =
      (LoopOutcome.ok t0 [JVal.obj [("tool", JVal.str s.toolName), ("result", r)]],
       [(s.toolName, s.toolParams)]) := by
    simp [runSteps, resolveParams_null, htool]
  simp only [execute, hsteps, List.length_cons, List.length_nil, Nat.zero_add, hrun]
  simp [createAgentMessage, eventBusPublish, eventBusFinished, hhist, hr, jsField_result]

/-- Witness for C6 at Scenario A. -/
theorem c6_witness :
    taskA.status.state = TaskState.working ∧
    (execute toolsA (Except.ok planA) execCtxA taskA).1.status.state = TaskState.completed ∧
    (execute toolsA (Except.ok planA) execCtxA taskA).1.history =
      [userMessageA,
       { role := Role.agent
         parts := [Part.text "Successfully executed create_account", Part.data accountA]
         contextId := some "ctx-a"
         taskId := some 3 }] ∧
    (execute toolsA (Except.ok planA) execCtxA taskA).2
      = [("create_account", [("name", JVal.str "Nike")])] := by
  have h := c6_theorem toolsA planA stepA accountA execCtxA taskA userMessageA rfl rfl rfl rfl rfl
  exact ⟨rfl, h.1, h.2.1, h.2.2⟩

/-! Claim C4. -/

/-- Counterexample to claim C4: a plan whose first (and only) step carries
the placeholder does not produce a planning fault; the sentinel is handed
verbatim to the tool registry and the task completes. -/
theorem c4_counterexample :
    (execute toolsP (Except.ok planOneP) execCtxP taskP).2
      = [("lookup_order", [("orderId", JVal.str previousResultSentinel)])] ∧
    (execute toolsP (Except.ok planOneP) execCtxP taskP).1.status.state = TaskState.completed ∧
    (execute toolsP (Except.ok planOneP) execCtxP taskP).1.status.state ≠ TaskState.failed :=
  ⟨rfl, rfl, by decide⟩

/-- Claim C4 (amended): for every plan and every step k, the first
invocation receives its parameters verbatim (a step-1 placeholder is not
rejected and not substituted), and for k greater than 0, whenever the
previous trace entry succeeded with a truthy result carrying a truthy id
field, every top-level parameter equal to the sentinel is replaced by
that id before invocation. -/
theorem c4_theorem
    (tool : ToolFn) (ctx : ExecutionContext) (p : PlanResponse) (t0 : Task)
    (k : Nat) (s : PlanStep) (c : ToolCall)
    (hs : (planSteps p)[k]? = some s)
    (hc : (execute tool (Except.ok p) ctx t0).2[k]? = some c) :
    (k = 0 → c = (s.toolName, s.toolParams)) ∧
    (∀ j cj r, k = j + 1 →
      (execute tool (Except.ok p) ctx t0).2[j]? = some cj →
      tool cj.1 cj.2 = Except.ok r →
      (r.truthy && (jsField r "id").truthy) = true →
      c = (s.toolName, s.toolParams.map (fun kv =>
            if kv.2.isStr previousResultSentinel then (kv.1, jsField r "id") else kv))) := by
  rw [execute_calls] at hc
  obtain ⟨s2, hs2, hdisj⟩ :=
    runSteps_calls tool ctx (planSteps p).length (planSteps p) 0 JVal.null [] t0 k c hc
  have hss : s2 = s := by
    rw [hs] at hs2
    exact (Option.some.inj hs2).symm
  subst hss
  constructor
  · intro hk0
    subst hk0
    rcases hdisj with ⟨_, hc0⟩ | ⟨j, cj, r, hkj, _⟩
    · rw [hc0, resolveParams_null]
    · omega
  · intro j cj r hkj hgetj htoolj htr
    rcases hdisj with ⟨hk0, _⟩ | ⟨j2, cj2, r2, hkj2, hgetj2, htool2, hc2⟩
    · omega
    · have hj : j2 = j := by omega
      subst hj
      rw [execute_calls] at hgetj
      have hcj : cj2 = cj := Option.some.inj (hgetj2.symm.trans hgetj)
      subst hcj
      have hr : r2 = r := Except.ok.inj (htool2.symm.trans htoolj)
      subst hr
      rw [hc2, resolveParams_of_truthy _ htr]

/-- Witness for C4 at Scenario B: the second call receives the id of the
first result in place of the placeholder. -/
theorem c4_witness :
    callB2 = (stepB2.toolName, stepB2.toolParams.map (fun kv =>
      if kv.2.isStr previousResultSentinel then (kv.1, jsField accountB "id") else kv)) :=
  (c4_theorem toolsB execCtxB planB taskB 1 stepB2 callB2 rfl rfl).2 0 callB1 accountB rfl rfl rfl rfl

/-! Claim C9. -/

/-- Claim C9 (confirmed): substitution is shallow and conditional; when
the previous result fails the truthiness test (no object with a truthy
id, in particular on the first step) the parameters pass through
unchanged, a parameter value that is not string-equal to the sentinel
(in particular any sentinel nested inside an object or array value) is
never substituted, and the first tool invocation of every plan receives
the verbatim step-1 parameters rather than a rejection. -/
theorem c9_theorem :
    (∀ (prev : JVal) (ps : Params), (prev.truthy && (jsField prev "id").truthy) = false →
       resolveParams prev ps = ps) ∧
    (∀ (prev : JVal) (ps : Params) (k : Nat) (kv : String × JVal),
       ps[k]? = some kv → kv.2.isStr previousResultSentinel = false →
       (resolveParams prev ps)[k]? = some kv) ∧
    (∀ (tool : ToolFn) (ctx : ExecutionContext) (p : PlanResponse) (t0 : Task)
       (s : PlanStep) (rest : List PlanStep), planSteps p = s :: rest →
       (execute tool (Except.ok p) ctx t0).2[0]? = some (s.toolName, s.toolParams)) := by
  refine ⟨fun prev ps h => resolveParams_of_falsy ps h, ?_, ?_⟩
  · intro prev ps k kv hget hns
    unfold resolveParams
    split
    · rw [List.getElem?_map, hget]
      simp [hns]
    · exact hget
  · intro tool ctx p t0 s rest hps
    rw [execute_calls, hps]
    simp only [runSteps]
    cases htool : tool s.toolName (resolveParams JVal.null s.toolParams) with
    | error m => dsimp only; simp [resolveParams_null]
    | ok r => dsimp only; simp [resolveParams_null]

/-- Witness for C9: a string previous result substitutes nothing, a
nested sentinel survives substitution even under a previous result with
an id, and a first invocation receives the sentinel verbatim. -/
theorem c9_witness :
    resolveParams (JVal.str "no-object") [("ref", JVal.str previousResultSentinel)]
      = [("ref", JVal.str previousResultSentinel)] ∧
    (resolveParams (JVal.obj [("id", JVal.str "z-1")])
        [("q", JVal.obj [("inner", JVal.str previousResultSentinel)])])[0]?
      = some ("q", JVal.obj [("inner", JVal.str previousResultSentinel)]) ∧
    (execute toolsQ (Except.ok planQ) execCtxQ taskQ).2[0]?
      = some ("search_products", [("query", JVal.str previousResultSentinel)]) :=
  ⟨c9_theorem.1 (JVal.str "no-object") [("ref", JVal.str previousResultSentinel)] rfl,
   c9_theorem.2.1 (JVal.obj [("id", JVal.str "z-1")])
     [("q", JVal.obj [("inner", JVal.str previousResultSentinel)])] 0
     ("q", JVal.obj [("inner", JVal.str previousResultSentinel)]) rfl rfl,
   c9_theorem.2.2 toolsQ execCtxQ planQ taskQ stepQ [] rfl⟩

end AgenticDirect
